import Mathlib

/-!
Verification of configs/validate_schemas.py.

The script loads one JSON Schema file, validates five hard-coded mirror
configuration files against it, prints a report, and exits 0 or 1.

Shallow embedding: the filesystem is modelled by the outcome the script
observes for each file (absent, unreadable, unparseable, or a parsed JSON
value), and the jsonschema library call validate(instance, schema) is an
abstract function returning one of three outcomes, matching the three
exception classes the script distinguishes: no exception, ValidationError
(message e.message), or any other exception (stringified message).
Paths are taken relative to CONFIG_DIR, so a file is named by its filename.
-/

/-- A JSON value, as produced by json.load. Numbers are modelled as
integers; no claim inspects numeric values. -/
inductive Json where
  | null
  | bool (b : Bool)
  | num (n : Int)
  | str (s : String)
  | arr (elems : List Json)
  | obj (fields : List (String × Json))

/-- Outcome of the jsonschema validate(instance, schema) call, as the
script distinguishes its exceptions: success, a ValidationError carrying
e.message, or any other exception (for example a SchemaError raised for an
ill-formed schema document) carrying its stringified message. -/
inductive ValidOutcome where
  | ok
  | violation (msg : String)
  | internalError (msg : String)

/-- What the script observes when it opens, reads and json-parses an
existing file: an exception on open or read (stringified message), a
json.JSONDecodeError (its diagnostic, including line and column), or a
parsed JSON value. -/
inductive FileRead where
  | otherError (msg : String)
  | parseError (msg : String)
  | parsed (v : Json)

/-- State of one target path on the filesystem: either Path.exists is
false, or the file is present with a given read outcome. -/
inductive FileState where
  | absent
  | present (r : FileRead)

/-- State of the schema file: open raised, json.load raised, or the file
parsed to a JSON value. -/
inductive SchemaFileState where
  | openError (msg : String)
  | unparseable (msg : String)
  | parsed (v : Json)

/-- The environment a run of the script reads: the schema file state, the
state of every path in CONFIG_DIR, and the jsonschema validator behaviour
(instance first, then schema, as in validate(instance=data, schema=schema)). -/
structure Env where
  schemaFile : SchemaFileState
  fileState : String → FileState
  validate : Json → Json → ValidOutcome

/-- SCHEMA_FILE = CONFIG_DIR / "ToolsConfiguration.schema.json"; only the
name component is ever printed. -/
def SCHEMA_FILE : String := "ToolsConfiguration.schema.json"

/-- MIRROR_FILES: the fixed ordered list of the five target filenames. -/
def MIRROR_FILES : List String :=
  ["brew_mirror.json",
   "maven_mirror.json",
   "npm_mirror.json",
   "orbstack_mirror.json",
   "python_pip.json"]

/-- Python string repetition, as in "=" * 60. -/
def pyStrMul (s : String) (n : Nat) : String :=
  String.join (List.replicate n s)

/-- Python format specifier {:30s}: left-justify by padding with spaces to
a minimum width of 30. -/
def ljust (s : String) (w : Nat) : String :=
  s.pushn ' ' (w - s.length)

/-- load_schema: open SCHEMA_FILE and json.load it. Any exception
propagates to the caller; modelled as Except with the exception message. -/
def load_schema : SchemaFileState → Except String Json
  | SchemaFileState.openError m => Except.error m
  | SchemaFileState.unparseable m => Except.error m
  | SchemaFileState.parsed v => Except.ok v

/-- validate_file: read and parse the file, then run the validator.
Returns (success, message) exactly as the try and except arms of the
source do: ValidationError gives the violation message, JSONDecodeError
the parse diagnostic, any other exception its stringified message. -/
def validate_file (validate : Json → Json → ValidOutcome) (schema : Json)
    (r : FileRead) : Bool × String :=
  match r with
  | FileRead.otherError m => (false, "❌ 错误: " ++ m)
  | FileRead.parseError m => (false, "❌ JSON 解析错误: " ++ m)
  | FileRead.parsed v =>
    match validate v schema with
    | ValidOutcome.ok => (true, "✅ 通过")
    | ValidOutcome.violation m => (false, "❌ 验证失败: " ++ m)
    | ValidOutcome.internalError m => (false, "❌ 错误: " ++ m)

/-- One iteration of the loop in main: if the path does not exist the
result is recorded directly, otherwise validate_file produces it. -/
def fileResult (validate : Json → Json → ValidOutcome) (schema : Json)
    (fn : String) (st : FileState) : String × Bool × String :=
  match st with
  | FileState.absent => (fn, false, "⚠️ 文件不存在")
  | FileState.present r =>
    let sm := validate_file validate schema r
    (fn, sm.1, sm.2)

/-- The results list built by the loop in main, one triple per entry of
MIRROR_FILES, in order. -/
def computeResults (validate : Json → Json → ValidOutcome)
    (fileState : String → FileState) (schema : Json) :
    List (String × Bool × String) :=
  MIRROR_FILES.map (fun fn => fileResult validate schema fn (fileState fn))

/-- The accumulator all_passed of main: true exactly when every recorded
result has success = True. -/
def all_passed (results : List (String × Bool × String)) : Bool :=
  results.all (fun r => r.2.1)

/-- One report line of main: status symbol, filename padded to 30
characters, message. -/
def renderLine (r : String × Bool × String) : String :=
  (if r.2.1 then "✓" else "✗") ++ " " ++ ljust r.1 30 ++ " " ++ r.2.2

/-- An observable side effect of a run: a stat call (Path.exists), a
filesystem read (open for reading), a filesystem write, or a line printed
to standard output. The write constructor exists so that its absence from
every trace is a statement, not a tautology of the type. -/
inductive Effect where
  | fsStat (path : String)
  | fsRead (path : String)
  | fsWrite (path : String) (content : String)
  | stdout (line : String)
deriving DecidableEq

/-- True exactly on the write effect. -/
def Effect.isWrite : Effect → Bool
  | Effect.fsWrite _ _ => true
  | _ => false

/-- Replay a trace of effects against a map from path to file contents:
only a write changes the map. -/
def applyEffects (es : List Effect) (fs : String → Option String) :
    String → Option String :=
  match es with
  | [] => fs
  | Effect.fsWrite p c :: rest =>
      applyEffects rest (fun q => if q = p then some c else fs q)
  | _ :: rest => applyEffects rest fs

/-- Filesystem effects of one loop iteration: Path.exists stats the path;
if it exists the file is opened and read. -/
def fileEffects (fn : String) (st : FileState) : List Effect :=
  match st with
  | FileState.absent => [Effect.fsStat fn]
  | FileState.present _ => [Effect.fsStat fn, Effect.fsRead fn]

/-- The three banner lines printed before anything else, then the read of
the schema file performed by load_schema. -/
def preEffects : List Effect :=
  [Effect.stdout (pyStrMul "=" 60),
   Effect.stdout "镜像配置文件 Schema 验证",
   Effect.stdout (pyStrMul "=" 60),
   Effect.fsRead SCHEMA_FILE]

/-- main followed by sys.exit(main()): returns the ordered effect trace of
the run and the process exit status. On a schema load failure the error is
printed and the process exits 1 at once; otherwise the loop runs over
MIRROR_FILES, the report is printed, and the status is 0 exactly when
all_passed holds. -/
def runMain (env : Env) : List Effect × Nat :=
  match load_schema env.schemaFile with
  | Except.error e =>
      (preEffects ++ [Effect.stdout ("❌ 无法加载 schema 文件: " ++ e)], 1)
  | Except.ok schema =>
      let results := computeResults env.validate env.fileState schema
      let ap := all_passed results
      (preEffects
        ++ [Effect.stdout ("✓ 已加载 schema: " ++ SCHEMA_FILE ++ "\n")]
        ++ MIRROR_FILES.flatMap (fun fn => fileEffects fn (env.fileState fn))
        ++ [Effect.stdout "\n验证结果:", Effect.stdout (pyStrMul "-" 60)]
        ++ results.map (fun r => Effect.stdout (renderLine r))
        ++ [Effect.stdout (pyStrMul "-" 60)]
        ++ [Effect.stdout
             (if ap then "\n✅ 所有文件验证通过！"
              else "\n❌ 部分文件验证失败，请检查上述错误！")],
       if ap then 0 else 1)

/-- The line printed by a stdout effect, if any. -/
def stdoutOf : Effect → Option String
  | Effect.stdout s => some s
  | _ => none

/-- The lines a run prints to standard output, in order. -/
def outputLines (env : Env) : List String :=
  (runMain env).1.filterMap stdoutOf

/-! Helper lemmas shared by the claim theorems. -/

theorem all_passed_iff (results : List (String × Bool × String)) :
    all_passed results = true ↔ ∀ r ∈ results, r.2.1 = true := by
  simp [all_passed]

theorem all_passed_false_of_mem (results : List (String × Bool × String))
    (r : String × Bool × String) (hr : r ∈ results) (hf : r.2.1 = false) :
    all_passed results = false := by
  rw [all_passed, List.all_eq_false]
  exact ⟨r, hr, by simp [hf]⟩

theorem fileResult_mem (validate : Json → Json → ValidOutcome)
    (fileState : String → FileState) (schema : Json) (fn : String)
    (h : fn ∈ MIRROR_FILES) :
    fileResult validate schema fn (fileState fn) ∈
      computeResults validate fileState schema :=
  List.mem_map_of_mem _ h

theorem exit_one_of_mem_failure (env : Env) (schema : Json)
    (hs : load_schema env.schemaFile = Except.ok schema)
    (r : String × Bool × String)
    (hr : r ∈ computeResults env.validate env.fileState schema)
    (hf : r.2.1 = false) :
    (runMain env).2 = 1 := by
  have hap := all_passed_false_of_mem _ r hr hf
  simp [runMain, hs, hap]

/-- C1: the exit status is 0 exactly when the schema loaded and every
recorded per-file result has success = true (every result Passed); in
every other case, schema load failure included, the status is 1. -/
theorem exit_status_iff_all_passed (env : Env) :
    ((runMain env).2 = 0 ↔
      ∃ schema, load_schema env.schemaFile = Except.ok schema ∧
        ∀ r ∈ computeResults env.validate env.fileState schema,
          r.2.1 = true) ∧
    ((runMain env).2 = 0 ∨ (runMain env).2 = 1) := by
  obtain ⟨sf, st, v⟩ := env
  cases sf with
  | openError m => simp [runMain, load_schema]
  | unparseable m => simp [runMain, load_schema]
  | parsed s =>
    have hload : load_schema (SchemaFileState.parsed s) = Except.ok s := rfl
    have hexit : (runMain ⟨SchemaFileState.parsed s, st, v⟩).2
        = if all_passed (computeResults v st s) then 0 else 1 := by
      simp [runMain, hload]
    rw [hexit]
    cases hap : all_passed (computeResults v st s) with
    | true =>
      refine ⟨?_, Or.inl rfl⟩
      constructor
      · intro _
        exact ⟨s, rfl, (all_passed_iff _).mp hap⟩
      · intro _
        rfl
    | false =>
      refine ⟨?_, Or.inr rfl⟩
      constructor
      · intro h
        simp at h
      · rintro ⟨sc, hsc, hall⟩
        have h2 : s = sc := by simpa [load_schema] using hsc
        subst h2
        have hta := (all_passed_iff (computeResults v st s)).mpr hall
        rw [hap] at hta
        exact absurd hta (by decide)

/-- C2: when the schema file cannot be opened or parsed, the run prints
only the three banner lines and the schema-load error line, performs no
per-file read or validation, and exits with status 1. -/
theorem schema_load_failure_fatal (env : Env) (m : String)
    (h : load_schema env.schemaFile = Except.error m) :
    runMain env =
      (preEffects ++ [Effect.stdout ("❌ 无法加载 schema 文件: " ++ m)], 1) := by
  simp [runMain, h]

/-! Sample environments used by the witness theorems. -/

def sampleSchema : Json := Json.obj [("type", Json.str "object")]

def envSchemaBad : Env :=
  ⟨SchemaFileState.unparseable "Expecting value: line 1 column 1 (char 0)",
   fun _ => FileState.absent, fun _ _ => ValidOutcome.ok⟩

def envAllPass : Env :=
  ⟨SchemaFileState.parsed sampleSchema,
   fun _ => FileState.present (FileRead.parsed (Json.obj [])),
   fun _ _ => ValidOutcome.ok⟩

def envOneMissing : Env :=
  ⟨SchemaFileState.parsed sampleSchema,
   fun fn => if fn = "npm_mirror.json" then FileState.absent
             else FileState.present (FileRead.parsed (Json.obj [])),
   fun _ _ => ValidOutcome.ok⟩

def envViolation : Env :=
  ⟨SchemaFileState.parsed sampleSchema,
   fun _ => FileState.present
     (FileRead.parsed (Json.obj [("registry", Json.num 123)])),
   fun _ _ => ValidOutcome.violation "123 is not of type string"⟩

def envParseErr : Env :=
  ⟨SchemaFileState.parsed sampleSchema,
   fun _ => FileState.present
     (FileRead.parseError "Expecting value: line 2 column 1 (char 1)"),
   fun _ _ => ValidOutcome.ok⟩

/-- C2 witness: a concrete unparseable schema file aborts the run. -/
theorem schema_load_failure_fatal_witness :
    runMain envSchemaBad =
      (preEffects ++ [Effect.stdout
        ("❌ 无法加载 schema 文件: " ++ "Expecting value: line 1 column 1 (char 0)")], 1) :=
  schema_load_failure_fatal envSchemaBad
    "Expecting value: line 1 column 1 (char 0)" rfl

/-! More helper lemmas, for the report shape. -/

theorem fileEffects_no_stdout (fn : String) (st : FileState) :
    (fileEffects fn st).filterMap stdoutOf = [] := by
  cases st <;> rfl

theorem no_stdout_flatMap (l : List String) (stf : String → FileState) :
    (l.flatMap (fun fn => fileEffects fn (stf fn))).filterMap stdoutOf = [] := by
  induction l with
  | nil => rfl
  | cons a t ih =>
    simp only [List.flatMap_cons, List.filterMap_append, fileEffects_no_stdout, ih]
    rfl

theorem filterMap_stdout_comp {α : Type} (f : α → String) (l : List α) :
    List.filterMap (stdoutOf ∘ fun r => Effect.stdout (f r)) l = l.map f := by
  induction l with
  | nil => rfl
  | cons a t ih => simp [List.filterMap_cons, stdoutOf, Function.comp, ih]

theorem outputLines_ok (env : Env) (schema : Json)
    (h : load_schema env.schemaFile = Except.ok schema) :
    outputLines env =
      [pyStrMul "=" 60, "镜像配置文件 Schema 验证", pyStrMul "=" 60,
       "✓ 已加载 schema: " ++ SCHEMA_FILE ++ "\n", "\n验证结果:", pyStrMul "-" 60]
      ++ (computeResults env.validate env.fileState schema).map renderLine
      ++ [pyStrMul "-" 60,
          if all_passed (computeResults env.validate env.fileState schema)
          then "\n✅ 所有文件验证通过！"
          else "\n❌ 部分文件验证失败，请检查上述错误！"] := by
  simp [outputLines, runMain, h, preEffects, List.filterMap_append,
    no_stdout_flatMap, stdoutOf, List.filterMap_map, filterMap_stdout_comp]

theorem computeResults_length (v : Json → Json → ValidOutcome)
    (st : String → FileState) (schema : Json) :
    (computeResults v st schema).length = MIRROR_FILES.length := by
  simp [computeResults]

/-- C3: after a successful schema load the results list has exactly one
entry per target filename, first components equal to MIRROR_FILES in
order, and the report prints one rendered line per result, contiguously
and in the same order. -/
theorem results_one_per_file_in_order (env : Env) (schema : Json)
    (h : load_schema env.schemaFile = Except.ok schema) :
    (computeResults env.validate env.fileState schema).map Prod.fst
      = MIRROR_FILES ∧
    (computeResults env.validate env.fileState schema).length = 5 ∧
    ∃ pre post, outputLines env =
      pre ++ (computeResults env.validate env.fileState schema).map renderLine
        ++ post := by
  refine ⟨?_, ?_, ?_⟩
  · have hfst : ∀ fn st0, (fileResult env.validate schema fn st0).1 = fn := by
      intro fn st0
      cases st0 <;> rfl
    simp [computeResults, MIRROR_FILES, hfst]
  · simp [computeResults, MIRROR_FILES]
  · exact ⟨_, _, outputLines_ok env schema h⟩

/-- C3 witness: instantiated at a concrete passing environment. -/
theorem results_one_per_file_in_order_witness :
    (computeResults envAllPass.validate envAllPass.fileState sampleSchema).map
        Prod.fst = MIRROR_FILES ∧
    (computeResults envAllPass.validate envAllPass.fileState
        sampleSchema).length = 5 ∧
    ∃ pre post, outputLines envAllPass =
      pre ++ (computeResults envAllPass.validate envAllPass.fileState
        sampleSchema).map renderLine ++ post :=
  results_one_per_file_in_order envAllPass sampleSchema rfl

/-- C4: per-file failures are non-fatal: the loop records one result for
every entry of MIRROR_FILES (it never stops early), and the i-th result is
a function of the i-th filename and the state of that file alone, so one
file failing in any way neither stops nor alters the processing of the
remaining files. -/
theorem per_file_independence (v : Json → Json → ValidOutcome)
    (schema : Json) (st : String → FileState) (i : Nat)
    (hi : i < MIRROR_FILES.length) :
    (computeResults v st schema).length = MIRROR_FILES.length ∧
    (computeResults v st schema).get
        ⟨i, by rw [computeResults_length] ; exact hi⟩
      = fileResult v schema (MIRROR_FILES.get ⟨i, hi⟩)
          (st (MIRROR_FILES.get ⟨i, hi⟩)) := by
  refine ⟨computeResults_length v st schema, ?_⟩
  have h5 : i < 5 := hi
  interval_cases i <;> rfl

/-- C4 witness: instantiated at index 2 of the list, with a file state
that fails every file. -/
theorem per_file_independence_witness :
    (computeResults (fun _ _ => ValidOutcome.ok)
        (fun _ => FileState.absent) sampleSchema).length
      = MIRROR_FILES.length ∧
    (computeResults (fun _ _ => ValidOutcome.ok)
        (fun _ => FileState.absent) sampleSchema).get
        ⟨2, by rw [computeResults_length] ; decide⟩
      = fileResult (fun _ _ => ValidOutcome.ok) sampleSchema
          (MIRROR_FILES.get ⟨2, by decide⟩)
          ((fun _ => FileState.absent) (MIRROR_FILES.get ⟨2, by decide⟩)) :=
  per_file_independence (fun _ _ => ValidOutcome.ok) sampleSchema
    (fun _ => FileState.absent) 2 (by decide)

/-- C5: a target file whose path does not exist produces the result
(false, "⚠️ 文件不存在") — the Missing result, the message meaning "file
does not exist" — as an ordinary recorded value, and the exit status of
the run is 1. -/
theorem missing_file_result (env : Env) (schema : Json) (fn : String)
    (hs : load_schema env.schemaFile = Except.ok schema)
    (hmem : fn ∈ MIRROR_FILES)
    (habs : env.fileState fn = FileState.absent) :
    (fn, false, "⚠️ 文件不存在") ∈
      computeResults env.validate env.fileState schema ∧
    (runMain env).2 = 1 := by
  have hr := fileResult_mem env.validate env.fileState schema fn hmem
  rw [habs] at hr
  exact ⟨hr, exit_one_of_mem_failure env schema hs _ hr rfl⟩

/-- C5 witness: npm_mirror.json absent in a concrete environment. -/
theorem missing_file_result_witness :
    ("npm_mirror.json", false, "⚠️ 文件不存在") ∈
      computeResults envOneMissing.validate envOneMissing.fileState
        sampleSchema ∧
    (runMain envOneMissing).2 = 1 :=
  missing_file_result envOneMissing sampleSchema "npm_mirror.json"
    rfl (by decide) rfl

/-- C6: a target file that parses but violates the schema (the validator
raises ValidationError with message m) produces the result
(false, "❌ 验证失败: " ++ m) — the SchemaViolation result carrying the
primary violation description m — and the exit status of the run is 1. -/
theorem schema_violation_result (env : Env) (schema : Json) (fn : String)
    (v : Json) (m : String)
    (hs : load_schema env.schemaFile = Except.ok schema)
    (hmem : fn ∈ MIRROR_FILES)
    (hfile : env.fileState fn = FileState.present (FileRead.parsed v))
    (hviol : env.validate v schema = ValidOutcome.violation m) :
    (fn, false, "❌ 验证失败: " ++ m) ∈
      computeResults env.validate env.fileState schema ∧
    (runMain env).2 = 1 := by
  have hr := fileResult_mem env.validate env.fileState schema fn hmem
  rw [hfile] at hr
  have heq : fileResult env.validate schema fn
      (FileState.present (FileRead.parsed v))
      = (fn, false, "❌ 验证失败: " ++ m) := by
    simp [fileResult, validate_file, hviol]
  rw [heq] at hr
  exact ⟨hr, exit_one_of_mem_failure env schema hs _ hr rfl⟩

/-- C6 witness: a concrete instance the validator rejects. -/
theorem schema_violation_result_witness :
    ("npm_mirror.json", false,
        "❌ 验证失败: " ++ "123 is not of type string") ∈
      computeResults envViolation.validate envViolation.fileState
        sampleSchema ∧
    (runMain envViolation).2 = 1 :=
  schema_violation_result envViolation sampleSchema "npm_mirror.json"
    (Json.obj [("registry", Json.num 123)]) "123 is not of type string"
    rfl (by decide) rfl rfl

/-- C7: an existing target file whose contents fail to parse as JSON
(json.load raises JSONDecodeError with diagnostic m) produces the result
(false, "❌ JSON 解析错误: " ++ m) — the ParseError result whose message is
derived from the parser diagnostic — and the exit status of the run
is 1. -/
theorem parse_error_result (env : Env) (schema : Json) (fn : String)
    (m : String)
    (hs : load_schema env.schemaFile = Except.ok schema)
    (hmem : fn ∈ MIRROR_FILES)
    (hfile : env.fileState fn = FileState.present (FileRead.parseError m)) :
    (fn, false, "❌ JSON 解析错误: " ++ m) ∈
      computeResults env.validate env.fileState schema ∧
    (runMain env).2 = 1 := by
  have hr := fileResult_mem env.validate env.fileState schema fn hmem
  rw [hfile] at hr
  exact ⟨hr, exit_one_of_mem_failure env schema hs _ hr rfl⟩

/-- C7 witness: a concrete malformed target file. -/
theorem parse_error_result_witness :
    ("brew_mirror.json", false,
        "❌ JSON 解析错误: " ++ "Expecting value: line 2 column 1 (char 1)") ∈
      computeResults envParseErr.validate envParseErr.fileState
        sampleSchema ∧
    (runMain envParseErr).2 = 1 :=
  parse_error_result envParseErr sampleSchema "brew_mirror.json"
    "Expecting value: line 2 column 1 (char 1)" rfl (by decide) rfl

/-! Helper lemmas about write effects. -/

def noWrites (es : List Effect) : Prop :=
  ∀ e ∈ es, e.isWrite = false

theorem noWrites_append {l1 l2 : List Effect}
    (h1 : noWrites l1) (h2 : noWrites l2) : noWrites (l1 ++ l2) := by
  intro e he
  rcases List.mem_append.mp he with h | h
  · exact h1 e h
  · exact h2 e h

theorem noWrites_preEffects : noWrites preEffects := by
  intro e he
  simp only [preEffects, List.mem_cons, List.not_mem_nil, or_false] at he
  rcases he with rfl | rfl | rfl | rfl <;> rfl

theorem noWrites_stdout_singleton (s : String) :
    noWrites [Effect.stdout s] := by
  intro e he
  simp only [List.mem_singleton] at he
  subst he
  rfl

theorem noWrites_stdout_pair (s t : String) :
    noWrites [Effect.stdout s, Effect.stdout t] := by
  intro e he
  simp only [List.mem_cons, List.not_mem_nil, or_false] at he
  rcases he with rfl | rfl <;> rfl

theorem noWrites_fileEffects (fn : String) (st : FileState) :
    noWrites (fileEffects fn st) := by
  intro e he
  cases st with
  | absent =>
    simp only [fileEffects, List.mem_singleton] at he
    subst he
    rfl
  | present r =>
    simp only [fileEffects, List.mem_cons, List.not_mem_nil, or_false] at he
    rcases he with rfl | rfl <;> rfl

theorem noWrites_flatMap (l : List String) (stf : String → FileState) :
    noWrites (l.flatMap (fun fn => fileEffects fn (stf fn))) := by
  intro e he
  rw [List.mem_flatMap] at he
  obtain ⟨fn, _, hin⟩ := he
  exact noWrites_fileEffects fn (stf fn) e hin

theorem noWrites_map_stdout {α : Type} (f : α → String) (l : List α) :
    noWrites (l.map fun r => Effect.stdout (f r)) := by
  intro e he
  rw [List.mem_map] at he
  obtain ⟨r, _, hrfl⟩ := he
  rw [← hrfl]
  rfl

theorem applyEffects_id (es : List Effect) :
    noWrites es → ∀ fs, applyEffects es fs = fs := by
  induction es with
  | nil => intro _ _; rfl
  | cons e rest ih =>
    intro h fs
    cases e with
    | fsWrite p c =>
      have hw := h (Effect.fsWrite p c) (List.mem_cons_self _ _)
      simp [Effect.isWrite] at hw
    | fsStat p => exact ih (fun x hx => h x (List.mem_cons_of_mem _ hx)) fs
    | fsRead p => exact ih (fun x hx => h x (List.mem_cons_of_mem _ hx)) fs
    | stdout s => exact ih (fun x hx => h x (List.mem_cons_of_mem _ hx)) fs

theorem runMain_trace_error (env : Env) (m : String)
    (h : load_schema env.schemaFile = Except.error m) :
    (runMain env).1 =
      preEffects ++ [Effect.stdout ("❌ 无法加载 schema 文件: " ++ m)] := by
  simp [runMain, h]

theorem runMain_trace_ok (env : Env) (schema : Json)
    (h : load_schema env.schemaFile = Except.ok schema) :
    (runMain env).1 =
      preEffects
      ++ [Effect.stdout ("✓ 已加载 schema: " ++ SCHEMA_FILE ++ "\n")]
      ++ MIRROR_FILES.flatMap (fun fn => fileEffects fn (env.fileState fn))
      ++ [Effect.stdout "\n验证结果:", Effect.stdout (pyStrMul "-" 60)]
      ++ (computeResults env.validate env.fileState schema).map
           (fun r => Effect.stdout (renderLine r))
      ++ [Effect.stdout (pyStrMul "-" 60)]
      ++ [Effect.stdout
           (if all_passed (computeResults env.validate env.fileState schema)
            then "\n✅ 所有文件验证通过！"
            else "\n❌ 部分文件验证失败，请检查上述错误！")] := by
  simp [runMain, h]

/-- C8: a run writes to no file: every effect of its trace is a stat, a
read or a print (never a write), and replaying the trace against any map
from path to file contents returns the map unchanged — the schema file
and all target files are untouched. -/
theorem run_writes_nothing (env : Env) :
    noWrites (runMain env).1 ∧
    ∀ fs : String → Option String, applyEffects (runMain env).1 fs = fs := by
  have hno : noWrites (runMain env).1 := by
    cases hload : load_schema env.schemaFile with
    | error m =>
      rw [runMain_trace_error env m hload]
      exact noWrites_append noWrites_preEffects (noWrites_stdout_singleton _)
    | ok schema =>
      rw [runMain_trace_ok env schema hload]
      exact noWrites_append (noWrites_append (noWrites_append
        (noWrites_append (noWrites_append (noWrites_append
          noWrites_preEffects (noWrites_stdout_singleton _))
          (noWrites_flatMap _ _)) (noWrites_stdout_pair _ _))
          (noWrites_map_stdout _ _)) (noWrites_stdout_singleton _))
        (noWrites_stdout_singleton _)
  exact ⟨hno, applyEffects_id _ hno⟩

/-- A parsed JSON value that is not a well-formed JSON Schema document
(jsonschema requires a schema to be an object or a boolean). -/
def notASchema : Json := Json.arr [Json.num 1]

def envBadSchema : Env :=
  ⟨SchemaFileState.parsed notASchema,
   fun _ => FileState.present (FileRead.parsed (Json.obj [])),
   fun _ _ => ValidOutcome.internalError "is not of type object, boolean"⟩

/-- C9: load_schema checks nothing beyond JSON syntax, so any parsed JSON
value — a well-formed schema document or not — loads successfully and the
run is not aborted; and when the validator then raises an exception other
than ValidationError for a parsed file (as jsonschema raises SchemaError
for an ill-formed schema), that file is recorded with the generic
OtherError message, not as a violation and not as a fatal error. -/
theorem illformed_schema_not_fatal (s : Json) :
    load_schema (SchemaFileState.parsed s) = Except.ok s ∧
    ∀ (env : Env) (fn : String) (v : Json) (m : String),
      fn ∈ MIRROR_FILES →
      env.fileState fn = FileState.present (FileRead.parsed v) →
      env.validate v s = ValidOutcome.internalError m →
      (fn, false, "❌ 错误: " ++ m) ∈
        computeResults env.validate env.fileState s := by
  refine ⟨rfl, ?_⟩
  intro env fn v m hmem hfile hint
  have hr := fileResult_mem env.validate env.fileState s fn hmem
  rw [hfile] at hr
  have heq : fileResult env.validate s fn
      (FileState.present (FileRead.parsed v))
      = (fn, false, "❌ 错误: " ++ m) := by
    simp [fileResult, validate_file, hint]
  rw [heq] at hr
  exact hr

/-- C9 witness: a concrete non-schema JSON document. -/
theorem illformed_schema_not_fatal_witness :
    load_schema (SchemaFileState.parsed notASchema) = Except.ok notASchema ∧
    ("brew_mirror.json", false,
        "❌ 错误: " ++ "is not of type object, boolean") ∈
      computeResults envBadSchema.validate envBadSchema.fileState
        notASchema :=
  ⟨(illformed_schema_not_fatal notASchema).1,
   (illformed_schema_not_fatal notASchema).2 envBadSchema
     "brew_mirror.json" (Json.obj []) "is not of type object, boolean"
     (by decide) rfl rfl⟩

/-- C10: the run is a deterministic function of the filesystem state it
reads: two environments with the same schema file state, the same
validator behaviour, and the same state for each of the five target
filenames yield the same effect trace, the same exit status, and the same
per-file result sequence for any schema value. -/
theorem run_deterministic (e1 e2 : Env)
    (hsf : e1.schemaFile = e2.schemaFile)
    (hv : e1.validate = e2.validate)
    (hst : ∀ fn ∈ MIRROR_FILES, e1.fileState fn = e2.fileState fn) :
    runMain e1 = runMain e2 ∧
    ∀ schema, computeResults e1.validate e1.fileState schema
      = computeResults e2.validate e2.fileState schema := by
  have h1 := hst "brew_mirror.json" (by decide)
  have h2 := hst "maven_mirror.json" (by decide)
  have h3 := hst "npm_mirror.json" (by decide)
  have h4 := hst "orbstack_mirror.json" (by decide)
  have h5 := hst "python_pip.json" (by decide)
  have hres : ∀ schema, computeResults e1.validate e1.fileState schema
      = computeResults e2.validate e2.fileState schema := by
    intro schema
    simp [computeResults, MIRROR_FILES, hv, h1, h2, h3, h4, h5]
  refine ⟨?_, hres⟩
  cases hload : load_schema e2.schemaFile with
  | error m =>
    have hload1 : load_schema e1.schemaFile = Except.error m := by
      rw [hsf]; exact hload
    simp [runMain, hload, hload1]
  | ok schema =>
    have hload1 : load_schema e1.schemaFile = Except.ok schema := by
      rw [hsf]; exact hload
    simp only [runMain, hload, hload1, hres schema]
    simp [MIRROR_FILES, h1, h2, h3, h4, h5]

/-- C10 witness: two syntactically different environments that agree on
the schema file, the validator and the five target files. -/
theorem run_deterministic_witness :
    runMain envAllPass =
      runMain ⟨SchemaFileState.parsed sampleSchema,
        fun fn => if fn = "not_a_mirror_file.json" then FileState.absent
                  else FileState.present (FileRead.parsed (Json.obj [])),
        fun _ _ => ValidOutcome.ok⟩ ∧
    ∀ schema, computeResults envAllPass.validate envAllPass.fileState schema
      = computeResults
          (⟨SchemaFileState.parsed sampleSchema,
            fun fn => if fn = "not_a_mirror_file.json" then FileState.absent
                      else FileState.present (FileRead.parsed (Json.obj [])),
            fun _ _ => ValidOutcome.ok⟩ : Env).validate
          (⟨SchemaFileState.parsed sampleSchema,
            fun fn => if fn = "not_a_mirror_file.json" then FileState.absent
                      else FileState.present (FileRead.parsed (Json.obj [])),
            fun _ _ => ValidOutcome.ok⟩ : Env).fileState schema :=
  run_deterministic _ _ rfl rfl
    (by intro fn hfn; fin_cases hfn <;> rfl)

/-- C1 witness: instantiated at a concrete passing environment. -/
theorem exit_status_iff_all_passed_witness :
    ((runMain envAllPass).2 = 0 ↔
      ∃ schema, load_schema envAllPass.schemaFile = Except.ok schema ∧
        ∀ r ∈ computeResults envAllPass.validate envAllPass.fileState schema,
          r.2.1 = true) ∧
    ((runMain envAllPass).2 = 0 ∨ (runMain envAllPass).2 = 1) :=
  exit_status_iff_all_passed envAllPass

/-- C8 witness: instantiated at a concrete environment. -/
theorem run_writes_nothing_witness :
    noWrites (runMain envViolation).1 ∧
    ∀ fs : String → Option String,
      applyEffects (runMain envViolation).1 fs = fs :=
  run_writes_nothing envViolation
